import Mathlib

set_option autoImplicit false

/-!
Verification of the Wildlife Monitoring System controller and dashboard.

This file gives a shallow embedding of the trigger-handling pipeline in
`src/main_controller.py` (the MQTT `on_message` handler, the global
`is_processing` flag, `run_animal_detection`, `save_to_db`,
`send_notification`) and of the dashboard listing route in
`src/web_dashboard.py`, and proves the spec's testable properties about
them.

Modelling conventions:
- Clock readings (`datetime.now()`) are natural numbers; each external
  call advances the clock by an environment-supplied duration.
- Confidences are rationals (the Python floats in play are exact
  decimals, and only order comparisons matter).
- Outcomes of external calls (subprocess success, JSON parse, model
  inference, sqlite and HTTP errors) are supplied by an `Env` record;
  `try/except` blocks are embedded as `Except` matches.
-/

/-- `ANIMAL_CLASSES` from main_controller.py lines 29-30. -/
def ANIMAL_CLASSES : List String :=
  ["bird", "cat", "dog", "horse", "sheep", "cow",
   "elephant", "bear", "zebra", "giraffe"]

/-- `CAPTURE_DIR` from main_controller.py line 24. -/
def CAPTURE_DIR : String := "/home/param/captures"

/-- The cooldown literal in `time.sleep(10)` at main_controller.py line 273. -/
def COOLDOWN_SECONDS : Nat := 10

/-- Python's `str.capitalize`: first character upper-cased, the rest
lower-cased (used at main_controller.py line 174). -/
def pyCapitalize (s : String) : String :=
  match s.data with
  | [] => ""
  | c :: cs => String.mk (c.toUpper :: cs.map Char.toLower)

/-- One YOLO detection as consumed by `run_animal_detection`: the looked-up
class name `model.names[int(box.cls[0])]` and `float(box.conf[0])`
(main_controller.py lines 168-170). -/
structure Detection where
  class_name : String
  confidence : ℚ
deriving DecidableEq

/-- The `best_detection` dict of main_controller.py line 164.  The Python
dict key `"class"` is rendered as the field `cls` (`class` is reserved). -/
structure BestDetection where
  is_animal : Bool
  cls : String
  confidence : ℚ
deriving DecidableEq

/-- Initial value of `best_detection` (main_controller.py line 164). -/
def default_detection : BestDetection :=
  { is_animal := false, cls := "False Positive", confidence := 0 }

/-- Loop body of `run_animal_detection` (main_controller.py lines 166-175):
`if class_name in ANIMAL_CLASSES and confidence > best_detection["confidence"]`. -/
def detectStep (best : BestDetection) (d : Detection) : BestDetection :=
  if ANIMAL_CLASSES.contains d.class_name ∧ best.confidence < d.confidence then
    { is_animal := true, cls := pyCapitalize d.class_name, confidence := d.confidence }
  else best

/-- `run_animal_detection` (main_controller.py lines 157-178), as a fold of
the loop body over the flattened detections of the frame. -/
def run_animal_detection (detections : List Detection) : BestDetection :=
  detections.foldl detectStep default_detection

/-- The confidences of the detections whose class name is in
`ANIMAL_CLASSES`, in encounter order. -/
def animalConfs (l : List Detection) : List ℚ :=
  (l.filter (fun d => ANIMAL_CLASSES.contains d.class_name)).map Detection.confidence

/-- The decoded trigger payload (`json.loads` result, main_controller.py
line 226): the four optional telemetry fields of the spec's TriggerPayload
read by `sensor_data.get(...)` at lines 252-255. -/
structure SensorData where
  temp : Option ℚ
  humidity : Option ℚ
  battery : Option Int
  light_state : Option Int
deriving DecidableEq

/-- The tuple bound into `INSERT INTO captures (...)` (main_controller.py
lines 67-80), i.e. one `captures` row minus the autoincrement id.
`timestamp` is a clock reading. -/
structure DbRow where
  timestamp : Nat
  classification : String
  confidence : ℚ
  video_path : Option String
  temp : Option ℚ
  humidity : Option ℚ
  battery : Option Int
  light_state : Option Int
deriving DecidableEq

/-- Outcome of decoding the inbound payload.  `json.loads` (line 226) may
raise (`malformed`); it may succeed with a non-object JSON value such as
`null`, a number, a list or a string — the stages then run, but the first
`sensor_data.get` attribute lookup at line 252 raises `AttributeError`
(`nonObject`); or it may succeed with a JSON object, whose `.get` calls
yield the four optional telemetry fields (`object`). -/
inductive ParseOutcome where
  | malformed
  | nonObject
  | object (sensor_data : SensorData)
deriving DecidableEq

/-- Environment of one `on_message` invocation: outcomes and durations of
every external call the handler makes.  `parse` is the payload-decoding
outcome; `recordOk`/`extractOk` are the success of the subprocess pipelines
inside `record_video`/`extract_frame` (those functions catch their own
errors and return `None` on failure); `classifyRaises` models the YOLO
call itself raising; `persistRaises`/`notifyRaises` model sqlite and
HTTP errors raised inside `save_to_db`/`send_notification`. -/
structure Env where
  parse : ParseOutcome
  recordOk : Bool
  extractOk : Bool
  detections : List Detection
  classifyRaises : Bool
  persistRaises : Bool
  notifyRaises : Bool
  recordDur : Nat
  extractDur : Nat
  classifyDur : Nat
  persistDur : Nat
  notifyDur : Nat
deriving DecidableEq

/-- `save_to_db` (main_controller.py lines 61-84): attempt the INSERT; the
whole body is wrapped in `try/except`, so a sqlite error yields no row and
never propagates.  Returns (rows actually inserted, whether an exception
escapes to the caller). -/
def save_to_db (env : Env) (data : DbRow) : List DbRow × Bool :=
  match (if env.persistRaises then (Except.error () : Except Unit (List DbRow))
         else Except.ok [data]) with
  | Except.ok rows => (rows, false)
  | Except.error _ => ([], false)

/-- `send_notification` (main_controller.py lines 180-199): one HTTP post
attempt; the whole body is wrapped in `try/except`, so a failure never
propagates.  Returns whether an exception escapes to the caller. -/
def send_notification (env : Env) : Bool :=
  match (if env.notifyRaises then (Except.error () : Except Unit Unit)
         else Except.ok ()) with
  | Except.ok _ => false
  | Except.error _ => false

/-- The final MP4 path produced by `record_video` (main_controller.py
lines 93-94, 138); the filename base is derived from the clock reading at
trigger handling time (line 229-230). -/
def video_path_of (t0 : Nat) : String :=
  CAPTURE_DIR ++ "/vid_" ++ toString t0 ++ ".mp4"

/-- The frame path (main_controller.py lines 231, 239). -/
def frame_path_of (t0 : Nat) : String :=
  CAPTURE_DIR ++ "/frame_" ++ toString t0 ++ ".jpg"

/-- Observable effects of one `on_message` invocation.
`admitted`: the delivery passed the gate check (lines 214-219).
`dbAttempts`: number of `save_to_db` calls; `dbInserts`: rows written.
`notifyCalls`: number of `send_notification` calls.
`slept`: seconds slept in the `finally` block.
`lastStageEnd`: clock time at which the run's last executed external stage
returned (the trigger time when no stage ran).
`lockClearTime`: clock time at which `is_processing = False` executes.
`finalBusy`: value of the flag when the handler returns.
`caughtException`: whether the `except` at line 267 fired. -/
structure RunResult where
  admitted : Bool
  dbAttempts : Nat
  dbInserts : List DbRow
  notifyCalls : Nat
  slept : Nat
  lastStageEnd : Nat
  lockClearTime : Option Nat
  finalBusy : Bool
  caughtException : Bool
deriving DecidableEq

/-- The `finally` block of `on_message` (main_controller.py lines 271-275):
sleep the 10-second cooldown, then clear `is_processing`; packaged together
with the effects accumulated by the run. -/
def finallyRelease (t : Nat) (att : Nat) (ins : List DbRow) (ntf : Nat)
    (caught : Bool) : RunResult :=
  { admitted := true, dbAttempts := att, dbInserts := ins, notifyCalls := ntf,
    slept := COOLDOWN_SECONDS, lastStageEnd := t,
    lockClearTime := some (t + COOLDOWN_SECONDS), finalBusy := false,
    caughtException := caught }

/-- Lines 228-263 of `on_message`: the body of the `try` block after
`json.loads` succeeded.  `sensor_data = none` stands for a parsed
non-object value: Capture, Extract and Classify still run, but building
`db_data` (lines 247-256) raises `AttributeError` on the first
`sensor_data.get` (line 252), which the `except` at line 267 catches —
so both `save_to_db` (line 259) and the notify guard (line 262) are
skipped. -/
def stagesAfterParse (t0 : Nat) (env : Env) (sensor_data : Option SensorData) :
    RunResult :=
  if env.recordOk = false then
    finallyRelease (t0 + env.recordDur) 0 [] 0 false
  else
    let video_path := video_path_of t0
    let t1 := t0 + env.recordDur
    if env.extractOk = false then
      finallyRelease (t1 + env.extractDur) 0 [] 0 false
    else
      let t2 := t1 + env.extractDur
      if env.classifyRaises then
        finallyRelease (t2 + env.classifyDur) 0 [] 0 true
      else
        let ai_result := run_animal_detection env.detections
        let t3 := t2 + env.classifyDur
        match sensor_data with
        | none => finallyRelease t3 0 [] 0 true
        | some sd =>
          let db_data : DbRow :=
            { timestamp := t3, classification := ai_result.cls,
              confidence := ai_result.confidence,
              video_path := some video_path,
              temp := sd.temp, humidity := sd.humidity,
              battery := sd.battery,
              light_state := sd.light_state }
          let saved := save_to_db env db_data
          let t4 := t3 + env.persistDur
          if saved.2 then finallyRelease t4 1 saved.1 0 true
          else if ai_result.is_animal then
            finallyRelease (t4 + env.notifyDur) 1 saved.1 1
              (send_notification env)
          else finallyRelease t4 1 saved.1 0 false

/-- `on_message` (main_controller.py lines 209-275), with the clock reading
`t0` at delivery time.  The busy check and early return are lines 214-216;
the lock is set at line 219 before the payload is parsed (line 226); every
admitted path, including the parse failure and any caught exception, runs
the `finally` block. -/
def on_message (is_processing : Bool) (t0 : Nat) (env : Env) : RunResult :=
  if is_processing then
    { admitted := false, dbAttempts := 0, dbInserts := [], notifyCalls := 0,
      slept := 0, lastStageEnd := t0, lockClearTime := none,
      finalBusy := is_processing, caughtException := false }
  else
    match env.parse with
    | ParseOutcome.malformed => finallyRelease t0 0 [] 0 true
    | ParseOutcome.nonObject => stagesAfterParse t0 env none
    | ParseOutcome.object sensor_data => stagesAfterParse t0 env (some sensor_data)

/-- A well-formed telemetry payload for concrete runs. -/
def sensorEx : SensorData :=
  { temp := some (mkRat 215 10), humidity := some 40,
    battery := some 87, light_state := some 1 }

/-- Concrete environment: everything succeeds, a cat is detected. -/
def envAnimal : Env :=
  { parse := ParseOutcome.object sensorEx, recordOk := true, extractOk := true,
    detections := [⟨"cat", mkRat 9 10⟩], classifyRaises := false,
    persistRaises := false, notifyRaises := false, recordDur := 10,
    extractDur := 1, classifyDur := 2, persistDur := 1, notifyDur := 1 }

/-- Concrete environment: the payload fails to parse as JSON. -/
def envMalformed : Env := { envAnimal with parse := ParseOutcome.malformed, detections := [] }

/-- Concrete environment: `record_video` fails (returns `None`). -/
def envCaptureFail : Env := { envAnimal with recordOk := false }

/-- Concrete environment: `extract_frame` fails (returns `None`). -/
def envExtractFail : Env := { envAnimal with extractOk := false }

/-- Concrete environment: the DB write and the notification both raise. -/
def envPersistNotifyFail : Env :=
  { envAnimal with persistRaises := true, notifyRaises := true }

/-- Concrete environment: no animal-class detection. -/
def envNoAnimal : Env := { envAnimal with detections := [⟨"person", mkRat 8 10⟩] }

/-- Concrete environment: the payload parses as a non-object JSON value
(e.g. `null`); a cat is detected. -/
def envNonDict : Env := { envAnimal with parse := ParseOutcome.nonObject }

/-- A concrete row, for exercising `save_to_db` directly. -/
def rowEx : DbRow :=
  { timestamp := 0, classification := "Cat", confidence := mkRat 9 10,
    video_path := some (video_path_of 0), temp := none, humidity := none,
    battery := none, light_state := none }

/-- Shared-state model of the admission-gate prefix of `on_message`
(main_controller.py lines 212-219) for two concurrently delivered triggers
A and B.  Each delivery executes two separately-atomic micro-operations on
the shared global `is_processing`: the read in `if is_processing:`
(line 214) and the assignment `is_processing = True` (line 219); between
them the interpreter may switch to the other delivery.  Program counter
values: 0 = before the read; 1 = read saw `False`, before the write;
2 = wrote the flag and proceeded into the pipeline (admitted);
3 = returned at line 216 (rejected). -/
structure GateState where
  is_processing : Bool
  pcA : Nat
  admittedA : Bool
  pcB : Nat
  admittedB : Bool
deriving DecidableEq

/-- Execute the next micro-operation of delivery B (`handlerB = true`) or
delivery A (`handlerB = false`). -/
def gateStep (s : GateState) (handlerB : Bool) : GateState :=
  if handlerB then
    if s.pcB = 0 then
      if s.is_processing then { s with pcB := 3 } else { s with pcB := 1 }
    else if s.pcB = 1 then
      { s with is_processing := true, pcB := 2, admittedB := true }
    else s
  else
    if s.pcA = 0 then
      if s.is_processing then { s with pcA := 3 } else { s with pcA := 1 }
    else if s.pcA = 1 then
      { s with is_processing := true, pcA := 2, admittedA := true }
    else s

/-- Run a schedule (an interleaving of the two deliveries). -/
def gateRun (sched : List Bool) (s : GateState) : GateState :=
  sched.foldl gateStep s

/-- Both deliveries start before their gate read, with the gate idle. -/
def gateInit : GateState :=
  { is_processing := false, pcA := 0, admittedA := false,
    pcB := 0, admittedB := false }

/-- One row of the `captures` table (schema at main_controller.py
lines 44-56): the autoincrement primary key plus the inserted fields. -/
structure CaptureRow where
  id : Nat
  event : DbRow
deriving DecidableEq

/-- The query `SELECT * FROM captures ORDER BY id DESC`
(web_dashboard.py lines 38-40): every row, sorted by the integer primary
key descending, no WHERE clause. -/
def queryAllDescById (db : List CaptureRow) : List CaptureRow :=
  db.mergeSort (fun a b => decide (b.id ≤ a.id))

/-- `os.path.basename` (web_dashboard.py line 51). -/
def basename (p : String) : String := (p.splitOn "/").getLastD p

/-- The dashboard index route (web_dashboard.py lines 31-57): fetch all
rows newest-id first, and attach `web_video_path` (the basename) when
`video_path` is truthy in Python (non-None and non-empty); no row is
dropped. -/
def index (db : List CaptureRow) : List (CaptureRow × Option String) :=
  (queryAllDescById db).map (fun cap =>
    (cap, match cap.event.video_path with
          | some p => if p = "" then none else some (basename p)
          | none => none))

/-- Two concrete `captures` rows, newest id 2; row id 1 is a False
Positive. -/
def dbEx : List CaptureRow :=
  [⟨1, { timestamp := 1, classification := "False Positive", confidence := 0,
         video_path := some (video_path_of 1), temp := none, humidity := none,
         battery := none, light_state := none }⟩,
   ⟨2, { timestamp := 2, classification := "Cat", confidence := mkRat 9 10,
         video_path := some (video_path_of 2), temp := none, humidity := none,
         battery := none, light_state := none }⟩]

example : run_animal_detection [⟨"dog", mkRat 4 10⟩, ⟨"cat", mkRat 9 10⟩]
    = { is_animal := true, cls := "Cat", confidence := mkRat 9 10 } := by decide

example : run_animal_detection [⟨"person", mkRat 1 2⟩, ⟨"car", mkRat 99 100⟩]
    = default_detection := by decide

example : run_animal_detection [⟨"dog", 0⟩] = default_detection := by decide

lemma self_le_foldl_max (a : ℚ) (l : List ℚ) : a ≤ l.foldl max a := by
  induction l generalizing a with
  | nil => exact le_refl a
  | cons x xs ih => exact le_trans (le_max_left a x) (ih (max a x))

lemma foldl_max_of_all_le (a : ℚ) (l : List ℚ) (h : ∀ x ∈ l, x ≤ a) :
    l.foldl max a = a := by
  induction l with
  | nil => rfl
  | cons x xs ih =>
    have hx : max a x = a := max_eq_left (h x (List.mem_cons_self x xs))
    simp only [List.foldl_cons, hx]
    exact ih fun y hy => h y (List.mem_cons_of_mem x hy)

lemma le_foldl_max_of_mem {x : ℚ} {l : List ℚ} (hx : x ∈ l) (a : ℚ) :
    x ≤ l.foldl max a := by
  induction l generalizing a with
  | nil => cases hx
  | cons y ys ih =>
    rcases List.mem_cons.mp hx with h | h
    · subst h
      exact le_trans (le_max_right a x) (self_le_foldl_max (max a x) ys)
    · exact ih h (max a y)

lemma animalConfs_cons_mem (d : Detection) (l : List Detection)
    (h : ANIMAL_CLASSES.contains d.class_name = true) :
    animalConfs (d :: l) = d.confidence :: animalConfs l := by
  have h' : d.class_name ∈ ANIMAL_CLASSES := by simpa using h
  simp [animalConfs, List.filter_cons, h']

lemma animalConfs_cons_not_mem (d : Detection) (l : List Detection)
    (h : ANIMAL_CLASSES.contains d.class_name = false) :
    animalConfs (d :: l) = animalConfs l := by
  have h' : d.class_name ∉ ANIMAL_CLASSES := by simpa using h
  simp [animalConfs, List.filter_cons, h']

/-- The running best's confidence after the loop is the max of the starting
confidence and the confidences of the animal-class detections. -/
lemma detect_foldl_confidence (l : List Detection) (b : BestDetection) :
    (l.foldl detectStep b).confidence = (animalConfs l).foldl max b.confidence := by
  induction l generalizing b with
  | nil => rfl
  | cons d ds ih =>
    by_cases hm : ANIMAL_CLASSES.contains d.class_name = true
    · rw [animalConfs_cons_mem d ds hm]
      by_cases hlt : b.confidence < d.confidence
      · have hm' : d.class_name ∈ ANIMAL_CLASSES := by simpa using hm
        have hstep : detectStep b d =
            { is_animal := true, cls := pyCapitalize d.class_name,
              confidence := d.confidence } := by
          simp [detectStep, hm', hlt]
        simp only [List.foldl_cons, hstep, ih]
        have : max b.confidence d.confidence = d.confidence :=
          max_eq_right (le_of_lt hlt)
        rw [this]
      · have hstep : detectStep b d = b := by
          simp [detectStep, hlt]
        have : max b.confidence d.confidence = b.confidence :=
          max_eq_left (le_of_not_lt hlt)
        simp only [List.foldl_cons, hstep, ih, this]
    · have hm' : ANIMAL_CLASSES.contains d.class_name = false :=
        Bool.eq_false_iff.mpr hm
      have hm2 : d.class_name ∉ ANIMAL_CLASSES := by simpa using hm'
      have hstep : detectStep b d = b := by
        simp [detectStep, hm2]
      rw [animalConfs_cons_not_mem d ds hm', List.foldl_cons, hstep, ih]

/-- If the loop does not raise the running confidence, it leaves the whole
running best unchanged. -/
lemma detect_foldl_eq_of_confidence_eq (l : List Detection) (b : BestDetection)
    (h : (l.foldl detectStep b).confidence = b.confidence) :
    l.foldl detectStep b = b := by
  induction l generalizing b with
  | nil => rfl
  | cons d ds ih =>
    by_cases hc : ANIMAL_CLASSES.contains d.class_name = true ∧
        b.confidence < d.confidence
    · exfalso
      have hm' : d.class_name ∈ ANIMAL_CLASSES := by simpa using hc.1
      have hstep : detectStep b d =
          { is_animal := true, cls := pyCapitalize d.class_name,
            confidence := d.confidence } := by
        simp [detectStep, hm', hc.2]
      have hconf := detect_foldl_confidence ds (detectStep b d)
      have hge : d.confidence ≤ (ds.foldl detectStep (detectStep b d)).confidence := by
        rw [hconf, hstep]
        exact self_le_foldl_max _ _
      rw [List.foldl_cons] at h
      rw [h] at hge
      exact absurd (lt_of_lt_of_le hc.2 hge) (lt_irrefl _)
    · have hstep : detectStep b d = b := by
        simp only [detectStep, if_neg hc]
      rw [List.foldl_cons, hstep] at h ⊢
      exact ih b h

/-- If the loop raised the running confidence, the final best is an animal,
and its class/confidence come from the first detection that attains the
final confidence (the strict comparison makes ties go to the earliest). -/
lemma detect_foldl_first_max (l : List Detection) (b : BestDetection)
    (h : b.confidence < (l.foldl detectStep b).confidence) :
    (l.foldl detectStep b).is_animal = true ∧
    ∃ d, l.find? (fun d => ANIMAL_CLASSES.contains d.class_name &&
            decide (d.confidence = (l.foldl detectStep b).confidence)) = some d ∧
      (l.foldl detectStep b).cls = pyCapitalize d.class_name ∧
      (l.foldl detectStep b).confidence = d.confidence := by
  induction l generalizing b with
  | nil => exact absurd h (lt_irrefl _)
  | cons d ds ih =>
    by_cases hc : ANIMAL_CLASSES.contains d.class_name = true ∧
        b.confidence < d.confidence
    · have hm' : d.class_name ∈ ANIMAL_CLASSES := by simpa using hc.1
      have hstep : detectStep b d =
          { is_animal := true, cls := pyCapitalize d.class_name,
            confidence := d.confidence } := by
        simp [detectStep, hm', hc.2]
      rw [List.foldl_cons, hstep] at h ⊢
      set b' : BestDetection :=
        { is_animal := true, cls := pyCapitalize d.class_name,
          confidence := d.confidence } with hb'
      by_cases heq : (ds.foldl detectStep b').confidence = b'.confidence
      · have hfix : ds.foldl detectStep b' = b' :=
          detect_foldl_eq_of_confidence_eq ds b' heq
        refine ⟨by rw [hfix], d, ?_, by rw [hfix], by rw [hfix]⟩
        apply List.find?_cons_of_pos
        have hm' : d.class_name ∈ ANIMAL_CLASSES := by simpa using hc.1
        simp [hm', hfix]
      · have hlt' : b'.confidence < (ds.foldl detectStep b').confidence := by
          have hge : b'.confidence ≤ (ds.foldl detectStep b').confidence := by
            rw [detect_foldl_confidence]
            exact self_le_foldl_max _ _
          exact lt_of_le_of_ne hge (fun hx => heq hx.symm)
        obtain ⟨hanim, dstar, hfind, hcls, hconf⟩ := ih b' hlt'
        refine ⟨hanim, dstar, ?_, hcls, hconf⟩
        rw [List.find?_cons_of_neg]
        · exact hfind
        · have hne : d.confidence ≠ (ds.foldl detectStep b').confidence :=
            ne_of_lt hlt'
          simp [hne]
    · have hstep : detectStep b d = b := by
        simp only [detectStep, if_neg hc]
      rw [List.foldl_cons, hstep] at h ⊢
      obtain ⟨hanim, dstar, hfind, hcls, hconf⟩ := ih b h
      refine ⟨hanim, dstar, ?_, hcls, hconf⟩
      rw [List.find?_cons_of_neg]
      · exact hfind
      · by_cases hm : ANIMAL_CLASSES.contains d.class_name = true
        · have hle : d.confidence ≤ b.confidence := by
            by_contra hgt
            exact hc ⟨hm, lt_of_not_le hgt⟩
          have hne : d.confidence ≠ (ds.foldl detectStep b).confidence :=
            ne_of_lt (lt_of_le_of_lt hle h)
          simp [hne]
        · have hm2 : d.class_name ∉ ANIMAL_CLASSES := by simpa using hm
          simp [hm2]

lemma foldl_max_zero_pos (l : List ℚ) : 0 < l.foldl max 0 ↔ ∃ c ∈ l, 0 < c := by
  constructor
  · intro h
    by_contra hno
    push_neg at hno
    have : l.foldl max 0 = 0 := foldl_max_of_all_le 0 l hno
    rw [this] at h
    exact absurd h (lt_irrefl 0)
  · rintro ⟨c, hc, hpos⟩
    exact lt_of_lt_of_le hpos (le_foldl_max_of_mem hc 0)

lemma mem_animalConfs {c : ℚ} {l : List Detection} :
    c ∈ animalConfs l ↔
      ∃ d ∈ l, ANIMAL_CLASSES.contains d.class_name = true ∧ d.confidence = c := by
  simp [animalConfs, List.mem_map, List.mem_filter]
  constructor
  · rintro ⟨d, ⟨hd, hmem⟩, hc⟩
    exact ⟨d, hd, hmem, hc⟩
  · rintro ⟨d, hd, hmem, hc⟩
    exact ⟨d, ⟨hd, hmem⟩, hc⟩

/-- The result is flagged as an animal exactly when the final confidence is
strictly positive (the running best starts at `0.0` and only strict
improvements are taken). -/
lemma run_animal_detection_is_animal_iff_pos (l : List Detection) :
    (run_animal_detection l).is_animal = true ↔
      0 < (run_animal_detection l).confidence := by
  have hconf : (run_animal_detection l).confidence = (animalConfs l).foldl max 0 :=
    detect_foldl_confidence l default_detection
  constructor
  · intro h
    by_contra hnp
    have hle : (run_animal_detection l).confidence ≤ 0 := le_of_not_lt hnp
    have hge : (0 : ℚ) ≤ (run_animal_detection l).confidence := by
      rw [hconf]
      exact self_le_foldl_max 0 (animalConfs l)
    have hzero : (run_animal_detection l).confidence = 0 := le_antisymm hle hge
    have hfix : run_animal_detection l = default_detection :=
      detect_foldl_eq_of_confidence_eq l default_detection hzero
    rw [hfix] at h
    exact Bool.false_ne_true h
  · intro h
    exact (detect_foldl_first_max l default_detection h).1

/-- C5 (amended): `is_animal` is true iff some detection's class is in
`ANIMAL_CLASSES` with strictly positive confidence; the reported confidence
is the maximum over the animal-class detections (floored at `0.0`, the
initial running best); when an animal is reported, its class and confidence
come from the first detection attaining that maximum (strict `>` makes ties
go to the earliest); the spec's two worked examples hold. -/
theorem C5_classification_characterization (dets : List Detection) :
    ((run_animal_detection dets).is_animal = true ↔
      ∃ d ∈ dets, ANIMAL_CLASSES.contains d.class_name = true ∧ 0 < d.confidence) ∧
    (run_animal_detection dets).confidence = (animalConfs dets).foldl max 0 ∧
    ((run_animal_detection dets).is_animal = true →
      ∃ d, dets.find? (fun d => ANIMAL_CLASSES.contains d.class_name &&
              decide (d.confidence = (run_animal_detection dets).confidence))
            = some d ∧
        (run_animal_detection dets).cls = pyCapitalize d.class_name ∧
        (run_animal_detection dets).confidence = d.confidence) ∧
    ((run_animal_detection dets).is_animal = false →
      run_animal_detection dets = default_detection) ∧
    run_animal_detection [⟨"dog", mkRat 4 10⟩, ⟨"cat", mkRat 9 10⟩]
      = { is_animal := true, cls := "Cat", confidence := mkRat 9 10 } ∧
    run_animal_detection [⟨"person", mkRat 1 2⟩, ⟨"car", mkRat 99 100⟩]
      = default_detection := by
  have hconf : (run_animal_detection dets).confidence = (animalConfs dets).foldl max 0 :=
    detect_foldl_confidence dets default_detection
  refine ⟨?_, hconf, ?_, ?_, by decide, by decide⟩
  · rw [run_animal_detection_is_animal_iff_pos, hconf, foldl_max_zero_pos]
    constructor
    · rintro ⟨c, hc, hpos⟩
      obtain ⟨d, hd, hmem, hdc⟩ := mem_animalConfs.mp hc
      exact ⟨d, hd, hmem, hdc ▸ hpos⟩
    · rintro ⟨d, hd, hmem, hpos⟩
      exact ⟨d.confidence, mem_animalConfs.mpr ⟨d, hd, hmem, rfl⟩, hpos⟩
  · intro h
    have hpos : 0 < (run_animal_detection dets).confidence :=
      (run_animal_detection_is_animal_iff_pos dets).mp h
    exact (detect_foldl_first_max dets default_detection hpos).2
  · intro h
    have hnp : ¬ 0 < (run_animal_detection dets).confidence := by
      intro hpos
      have := (run_animal_detection_is_animal_iff_pos dets).mpr hpos
      rw [h] at this
      exact Bool.false_ne_true this
    have hge : (0 : ℚ) ≤ (run_animal_detection dets).confidence := by
      rw [hconf]
      exact self_le_foldl_max 0 (animalConfs dets)
    exact detect_foldl_eq_of_confidence_eq dets default_detection
      (le_antisymm (le_of_not_lt hnp) hge)

/-- C5 counterexample to the claim as stated: for the single detection
`dog/0.0` the label is in the animal set and the reported confidence (0.0)
equals the maximum confidence among animal-set detections, yet the code
returns `is_animal = false` — the claim's iff would force `true`. -/
theorem C5_zero_conf_animal_not_flagged :
    (run_animal_detection [⟨"dog", 0⟩]).is_animal = false ∧
    (∃ d ∈ [(⟨"dog", 0⟩ : Detection)], ANIMAL_CLASSES.contains d.class_name = true) ∧
    (run_animal_detection [⟨"dog", 0⟩]).confidence
      = (animalConfs [⟨"dog", 0⟩]).foldl max 0 := by decide

/-- Witness for `C5_classification_characterization` at concrete inputs. -/
theorem C5_classification_characterization_witness :
    (∃ d, ([⟨"dog", mkRat 4 10⟩, ⟨"cat", mkRat 9 10⟩] : List Detection).find?
            (fun d => ANIMAL_CLASSES.contains d.class_name &&
              decide (d.confidence =
                (run_animal_detection
                  [⟨"dog", mkRat 4 10⟩, ⟨"cat", mkRat 9 10⟩]).confidence))
          = some d ∧
        (run_animal_detection [⟨"dog", mkRat 4 10⟩, ⟨"cat", mkRat 9 10⟩]).cls
          = pyCapitalize d.class_name ∧
        (run_animal_detection [⟨"dog", mkRat 4 10⟩, ⟨"cat", mkRat 9 10⟩]).confidence
          = d.confidence) ∧
    run_animal_detection [⟨"person", mkRat 1 2⟩] = default_detection :=
  ⟨(C5_classification_characterization
      [⟨"dog", mkRat 4 10⟩, ⟨"cat", mkRat 9 10⟩]).2.2.1 (by decide),
   (C5_classification_characterization [⟨"person", mkRat 1 2⟩]).2.2.2.1 (by decide)⟩

/-- C10: if every animal-class detection in the frame has confidence exactly
`0.0`, the result is the default non-animal record: an update requires a
confidence strictly greater than the running best, which starts at `0.0`. -/
theorem C10_zero_confidence_default (dets : List Detection)
    (h : ∀ d ∈ dets, ANIMAL_CLASSES.contains d.class_name = true →
      d.confidence = 0) :
    run_animal_detection dets = default_detection := by
  apply detect_foldl_eq_of_confidence_eq
  rw [detect_foldl_confidence]
  apply foldl_max_of_all_le
  intro c hc
  obtain ⟨d, hd, hmem, hdc⟩ := mem_animalConfs.mp hc
  rw [← hdc, h d hd hmem]
  exact le_refl 0

/-- Witness for `C10_zero_confidence_default`. -/
theorem C10_zero_confidence_default_witness :
    run_animal_detection [⟨"dog", 0⟩, ⟨"person", mkRat 3 4⟩] = default_detection :=
  C10_zero_confidence_default [⟨"dog", 0⟩, ⟨"person", mkRat 3 4⟩] (by decide)

example : (on_message false 0 envMalformed).slept = COOLDOWN_SECONDS := by decide

example : (on_message true 0 envAnimal).admitted = false := by decide

lemma save_to_db_never_propagates (env : Env) (data : DbRow) :
    (save_to_db env data).2 = false := by
  cases hp : env.persistRaises <;> simp [save_to_db, hp]

lemma send_notification_never_propagates (env : Env) :
    send_notification env = false := by
  cases hn : env.notifyRaises <;> simp [send_notification, hn]

/-- C1: the gate's check (line 214) and flip (line 219) are two separate
operations on the plain global `is_processing`, so under the interleaving
read-A, read-B, write-A, write-B two near-simultaneous deliveries are BOTH
admitted, while the serialized schedule admits only the first: the
check-and-flip is not atomic and does not provide the claimed mutual
exclusion. -/
theorem C1_gate_check_and_flip_not_atomic :
    (gateRun [false, true, false, true] gateInit).admittedA = true ∧
    (gateRun [false, true, false, true] gateInit).admittedB = true ∧
    (gateRun [false, false, true, true] gateInit).admittedA = true ∧
    (gateRun [false, false, true, true] gateInit).admittedB = false := by decide

/-- C2 (amended): a malformed trigger payload DOES engage the gate and DOES
incur the cooldown: the lock is set (line 219) before `json.loads` runs
(line 226); the parse error is caught, no stage runs, nothing is written,
and the `finally` block sleeps the cooldown and then releases the lock. -/
theorem C2_malformed_engages_gate_and_cooldown (t0 : Nat) (env : Env)
    (h : env.parse = ParseOutcome.malformed) :
    (on_message false t0 env).admitted = true ∧
    (on_message false t0 env).dbAttempts = 0 ∧
    (on_message false t0 env).dbInserts = [] ∧
    (on_message false t0 env).notifyCalls = 0 ∧
    (on_message false t0 env).slept = COOLDOWN_SECONDS ∧
    (on_message false t0 env).lockClearTime = some (t0 + COOLDOWN_SECONDS) ∧
    (on_message false t0 env).finalBusy = false ∧
    (on_message false t0 env).caughtException = true := by
  simp [on_message, h, finallyRelease]

/-- Witness for `C2_malformed_engages_gate_and_cooldown`. -/
theorem C2_malformed_witness :
    (on_message false 5 envMalformed).admitted = true ∧
    (on_message false 5 envMalformed).dbAttempts = 0 ∧
    (on_message false 5 envMalformed).dbInserts = [] ∧
    (on_message false 5 envMalformed).notifyCalls = 0 ∧
    (on_message false 5 envMalformed).slept = COOLDOWN_SECONDS ∧
    (on_message false 5 envMalformed).lockClearTime = some (5 + COOLDOWN_SECONDS) ∧
    (on_message false 5 envMalformed).finalBusy = false ∧
    (on_message false 5 envMalformed).caughtException = true :=
  C2_malformed_engages_gate_and_cooldown 5 envMalformed (by decide)

/-- C2 counterexample to the claim as stated: a delivery whose payload
fails to parse sets the busy flag (the gate IS engaged) and sleeps the full
10-second cooldown, instead of returning without engaging the gate or
waiting. -/
theorem C2_counterexample_malformed_not_free :
    (on_message false 0 envMalformed).admitted = true ∧
    (on_message false 0 envMalformed).slept = COOLDOWN_SECONDS ∧
    COOLDOWN_SECONDS ≠ 0 := by decide

/-- C3: if Capture fails (`record_video` returns `None`) or Extract fails
(`extract_frame` returns `None`), the run writes nothing — `save_to_db` is
never even called — and still proceeds to the cooldown before the gate is
released. -/
theorem C3_capture_or_extract_failure_writes_nothing (t0 : Nat) (env : Env)
    (sd : SensorData) (hp : env.parse = ParseOutcome.object sd)
    (h : env.recordOk = false ∨ env.extractOk = false) :
    (on_message false t0 env).dbAttempts = 0 ∧
    (on_message false t0 env).dbInserts = [] ∧
    (on_message false t0 env).notifyCalls = 0 ∧
    (on_message false t0 env).slept = COOLDOWN_SECONDS ∧
    (on_message false t0 env).lockClearTime
      = some ((on_message false t0 env).lastStageEnd + COOLDOWN_SECONDS) := by
  rcases h with h | h
  · simp [on_message, stagesAfterParse, hp, h, finallyRelease]
  · by_cases hr : env.recordOk = false
    · simp [on_message, stagesAfterParse, hp, hr, finallyRelease]
    · have hr' : env.recordOk = true := by
        revert hr
        cases env.recordOk <;> simp
      simp [on_message, stagesAfterParse, hp, hr', h, finallyRelease]

/-- Witness for `C3_capture_or_extract_failure_writes_nothing`. -/
theorem C3_capture_failure_witness :
    (on_message false 0 envCaptureFail).dbAttempts = 0 ∧
    (on_message false 0 envCaptureFail).dbInserts = [] ∧
    (on_message false 0 envCaptureFail).notifyCalls = 0 ∧
    (on_message false 0 envCaptureFail).slept = COOLDOWN_SECONDS ∧
    (on_message false 0 envCaptureFail).lockClearTime
      = some ((on_message false 0 envCaptureFail).lastStageEnd + COOLDOWN_SECONDS) :=
  C3_capture_or_extract_failure_writes_nothing 0 envCaptureFail sensorEx
    (by decide) (Or.inl (by decide))

/-- C4 (amended): an admitted run whose payload parses to a JSON object,
in which Capture, Extract and Classify all complete (and whose DB write is
accepted by the store) inserts exactly one row, and that row's `timestamp`
is the fresh clock reading taken after classification completes (trigger
time plus the three stage durations), not the trigger-receipt reading. -/
theorem C4_success_inserts_exactly_one_row (t0 : Nat) (env : Env)
    (sd : SensorData) (hp : env.parse = ParseOutcome.object sd) (hr : env.recordOk = true)
    (he : env.extractOk = true) (hc : env.classifyRaises = false)
    (hdb : env.persistRaises = false) :
    (on_message false t0 env).dbAttempts = 1 ∧
    (on_message false t0 env).dbInserts =
      [{ timestamp := t0 + env.recordDur + env.extractDur + env.classifyDur,
         classification := (run_animal_detection env.detections).cls,
         confidence := (run_animal_detection env.detections).confidence,
         video_path := some (video_path_of t0),
         temp := sd.temp, humidity := sd.humidity,
         battery := sd.battery, light_state := sd.light_state }] ∧
    (0 < env.recordDur + env.extractDur + env.classifyDur →
      t0 + env.recordDur + env.extractDur + env.classifyDur ≠ t0) := by
  refine ⟨?_, ?_, fun hpos => by omega⟩ <;>
    cases hA : (run_animal_detection env.detections).is_animal <;>
      simp [on_message, stagesAfterParse, hp, hr, he, hc, save_to_db, hdb, hA, finallyRelease]

/-- Witness for `C4_success_inserts_exactly_one_row`. -/
theorem C4_success_witness :
    (on_message false 3 envAnimal).dbAttempts = 1 ∧
    (on_message false 3 envAnimal).dbInserts =
      [{ timestamp := 3 + envAnimal.recordDur + envAnimal.extractDur
            + envAnimal.classifyDur,
         classification := (run_animal_detection envAnimal.detections).cls,
         confidence := (run_animal_detection envAnimal.detections).confidence,
         video_path := some (video_path_of 3),
         temp := sensorEx.temp, humidity := sensorEx.humidity,
         battery := sensorEx.battery, light_state := sensorEx.light_state }] ∧
    3 + envAnimal.recordDur + envAnimal.extractDur + envAnimal.classifyDur ≠ 3 :=
  have h := C4_success_inserts_exactly_one_row 3 envAnimal sensorEx
    rfl rfl rfl rfl rfl
  ⟨h.1, h.2.1, h.2.2 (by decide)⟩

/-- C4 counterexample to the claim as stated: with a payload that parses to
a non-object JSON value (e.g. `null`), the run is admitted and Capture,
Extract and Classify all complete (the clock advances through all three
stage durations), yet zero rows are inserted — `save_to_db` is never even
reached, because building `db_data` raises `AttributeError` on the first
`sensor_data.get` at line 252. -/
theorem C4_counterexample_nonobject_payload :
    envNonDict.recordOk = true ∧ envNonDict.extractOk = true ∧
    envNonDict.classifyRaises = false ∧
    (on_message false 0 envNonDict).admitted = true ∧
    (on_message false 0 envNonDict).lastStageEnd
      = 0 + envNonDict.recordDur + envNonDict.extractDur
        + envNonDict.classifyDur ∧
    (on_message false 0 envNonDict).caughtException = true ∧
    (on_message false 0 envNonDict).dbAttempts = 0 ∧
    (on_message false 0 envNonDict).dbInserts = [] := by decide

/-- C6 (amended): on every run with a JSON-object payload that completes
the Classify stage, the notifier is invoked exactly when the classification
is flagged as an animal; in particular a default (non-animal)
classification never triggers it. -/
theorem C6_notify_iff_animal (t0 : Nat) (env : Env) (sd : SensorData)
    (hp : env.parse = ParseOutcome.object sd) (hr : env.recordOk = true)
    (he : env.extractOk = true) (hc : env.classifyRaises = false) :
    ((on_message false t0 env).notifyCalls = 1 ↔
      (run_animal_detection env.detections).is_animal = true) ∧
    ((on_message false t0 env).notifyCalls = 0 ↔
      (run_animal_detection env.detections).is_animal = false) ∧
    (run_animal_detection env.detections = default_detection →
      (on_message false t0 env).notifyCalls = 0) := by
  have hkey : (on_message false t0 env).notifyCalls =
      (if (run_animal_detection env.detections).is_animal then 1 else 0) := by
    cases hA : (run_animal_detection env.detections).is_animal <;>
      cases hdb : env.persistRaises <;>
        simp [on_message, stagesAfterParse, hp, hr, he, hc, save_to_db, hdb, hA, finallyRelease]
  refine ⟨?_, ?_, ?_⟩
  · rw [hkey]
    cases hA : (run_animal_detection env.detections).is_animal <;> simp
  · rw [hkey]
    cases hA : (run_animal_detection env.detections).is_animal <;> simp
  · intro hdef
    rw [hkey, hdef]
    simp [default_detection]

/-- Witness for `C6_notify_iff_animal`: an animal run notifies once, a
non-animal run never notifies. -/
theorem C6_notify_witness :
    (on_message false 0 envAnimal).notifyCalls = 1 ∧
    (on_message false 0 envNoAnimal).notifyCalls = 0 :=
  ⟨(C6_notify_iff_animal 0 envAnimal sensorEx rfl rfl rfl rfl).1.mpr (by decide),
   (C6_notify_iff_animal 0 envNoAnimal sensorEx rfl rfl rfl rfl).2.1.mpr (by decide)⟩

/-- C6 counterexample to the claim as stated: the same non-object payload
with a cat detected at confidence 0.9 — the run reaches and completes
Classify with `is_animal = true`, yet the notifier is never invoked: the
`AttributeError` at line 252 jumps to the `except` at line 267 before the
notify guard at line 262 is ever evaluated. -/
theorem C6_counterexample_nonobject_payload :
    (run_animal_detection envNonDict.detections).is_animal = true ∧
    (on_message false 0 envNonDict).notifyCalls = 0 ∧
    (on_message false 0 envNonDict).caughtException = true := by decide

/-- C7: persist and notify are independent best-effort steps: `save_to_db`
and `send_notification` both swallow their own exceptions (nothing ever
propagates out of either stage), and even when the DB write fails the
notification for an animal classification is still attempted — exactly
once, never retried. -/
theorem C7_persist_notify_independent (env : Env) (data : DbRow) (t0 : Nat)
    (sd : SensorData) (hp : env.parse = ParseOutcome.object sd) (hr : env.recordOk = true)
    (he : env.extractOk = true) (hc : env.classifyRaises = false)
    (hdb : env.persistRaises = true)
    (hA : (run_animal_detection env.detections).is_animal = true) :
    (save_to_db env data).2 = false ∧
    send_notification env = false ∧
    (on_message false t0 env).dbInserts = [] ∧
    (on_message false t0 env).notifyCalls = 1 ∧
    (on_message false t0 env).caughtException = false := by
  refine ⟨save_to_db_never_propagates env data,
    send_notification_never_propagates env, ?_, ?_, ?_⟩ <;>
    simp [on_message, stagesAfterParse, hp, hr, he, hc, save_to_db, hdb, hA,
      finallyRelease, send_notification_never_propagates]

/-- Witness for `C7_persist_notify_independent`: DB write and notification
both raise, yet the row is merely missing, the notification is attempted
exactly once, and nothing escapes the handler. -/
theorem C7_persist_notify_witness :
    (save_to_db envPersistNotifyFail rowEx).2 = false ∧
    send_notification envPersistNotifyFail = false ∧
    (on_message false 0 envPersistNotifyFail).dbInserts = [] ∧
    (on_message false 0 envPersistNotifyFail).notifyCalls = 1 ∧
    (on_message false 0 envPersistNotifyFail).caughtException = false :=
  C7_persist_notify_independent envPersistNotifyFail rowEx 0 sensorEx
    rfl rfl rfl rfl rfl (by decide)

/-- C8: every admitted run — successful, aborted at any stage, or ended by
a caught exception (parse failure, classifier failure) — clears
`is_processing` exactly `COOLDOWN_SECONDS` after its last executed stage
completed, hence never earlier than the configured cooldown. -/
theorem C8_cooldown_unconditional (t0 : Nat) (env : Env) :
    (on_message false t0 env).admitted = true ∧
    (on_message false t0 env).slept = COOLDOWN_SECONDS ∧
    (on_message false t0 env).lockClearTime
      = some ((on_message false t0 env).lastStageEnd + COOLDOWN_SECONDS) := by
  obtain ⟨p, ro, eo, dets, cr, pr, nr, rd, ed, cd, pd, nd⟩ := env
  cases p <;> cases ro <;> cases eo <;> cases cr <;> cases pr <;>
    cases hA : (run_animal_detection dets).is_animal <;>
      simp [on_message, stagesAfterParse, save_to_db, send_notification, hA, finallyRelease]

lemma index_map_fst (db : List CaptureRow) :
    (index db).map Prod.fst = queryAllDescById db := by
  simp only [index, List.map_map]
  exact List.map_id (queryAllDescById db)

/-- C9: the dashboard listing returns every row of the `captures` table —
no WHERE clause, so rows classified "False Positive" are included — and,
since `id` is the unique primary key, the rows come out strictly ordered by
id descending. -/
theorem C9_listing_all_rows_desc (db : List CaptureRow)
    (h : (db.map CaptureRow.id).Nodup) :
    ((index db).map Prod.fst).Perm db ∧
    (∀ r ∈ db, r ∈ (index db).map Prod.fst) ∧
    ((index db).map Prod.fst).Pairwise (fun a b => b.id < a.id) := by
  rw [index_map_fst]
  have hperm : (queryAllDescById db).Perm db :=
    List.mergeSort_perm db (fun a b => decide (b.id ≤ a.id))
  refine ⟨hperm, fun r hr => hperm.mem_iff.mpr hr, ?_⟩
  have hsorted : (queryAllDescById db).Pairwise
      (fun a b => decide (b.id ≤ a.id) = true) := by
    apply List.sorted_mergeSort
    · intro a b c hab hbc
      simp only [decide_eq_true_eq] at hab hbc ⊢
      omega
    · intro a b
      rcases Nat.le_total b.id a.id with hle | hle <;> simp [hle]
  have hnodup : ((queryAllDescById db).map CaptureRow.id).Nodup :=
    ((hperm.map CaptureRow.id).nodup_iff).mpr h
  have hne : (queryAllDescById db).Pairwise (fun a b => a.id ≠ b.id) :=
    (List.pairwise_map).mp hnodup
  have hand := hsorted.and hne
  apply hand.imp
  intro a b hab
  have h1 : b.id ≤ a.id := by
    have := hab.1
    simpa using this
  exact lt_of_le_of_ne h1 (fun he => hab.2 he.symm)

/-- Witness for `C9_listing_all_rows_desc`. -/
theorem C9_listing_witness :
    ((index dbEx).map Prod.fst).Perm dbEx ∧
    (∀ r ∈ dbEx, r ∈ (index dbEx).map Prod.fst) ∧
    ((index dbEx).map Prod.fst).Pairwise (fun a b => b.id < a.id) :=
  C9_listing_all_rows_desc dbEx (by decide)
